import Mathlib

/-!
Shallow embedding of `src/image_reader.py` (bill-extractor).

The Python program wires a LangGraph `StateGraph` over an `AgentState`
TypedDict, with a Pydantic schema `BillExtraction` for the model's
structured output.  Effects are made explicit:

* the filesystem is a function `FileSystem : String → Except String (List Nat)`
  (`.ok bytes` models a successful `open(path, "rb").read()`, `.error e`
  models the raised `OSError` with message `str(e) = e`);
* the hosted model (`ChatGoogleGenerativeAI(...).with_structured_output(...)`
  followed by `llm.invoke([message])`) is a function
  `Model : ModelRequest → Except String BillExtraction` (`.error e` models a
  raised transport / validation / provider exception with message `e`);
* Python dictionaries produced by `response.model_dump()` are `JsonValue`
  objects (ordered key/value lists, `None ↦ JsonValue.null`).
-/

/-! ## JSON values (plain Python dicts produced by `model_dump` / printed by `json.dumps`) -/

mutual

inductive JsonValue where
  | null : JsonValue
  | str : String → JsonValue
  | num : Float → JsonValue
  | obj : JsonFields → JsonValue

inductive JsonFields where
  | nil : JsonFields
  | cons : String → JsonValue → JsonFields → JsonFields

end

/-- The keys of an ordered field list, in order. -/
def JsonFields.keys : JsonFields → List String
  | .nil => []
  | .cons k _ rest => k :: rest.keys

/-- Ordered-dict lookup. -/
def JsonFields.find : JsonFields → String → Option JsonValue
  | .nil, _ => none
  | .cons k v rest, key => if k == key then some v else rest.find key

/-- Top-level keys of a JSON object (empty for non-objects). -/
def topKeys : JsonValue → List String
  | .obj fs => fs.keys
  | _ => []

/-- Look up `doc[sect][leaf]` in a two-level JSON object. -/
def leafLookup (doc : JsonValue) (sect leaf : String) : Option JsonValue :=
  match doc with
  | .obj fs =>
      match fs.find sect with
      | some (.obj inner) => inner.find leaf
      | _ => none
  | _ => none

/-! ## The Pydantic schema (section 2 of the source) -/

structure Provider where
  name : Option String
  contact_info : Option String

structure DocumentInfo where
  type : Option String
  number : Option String
  issue_date : Option String

structure Customer where
  name : Option String
  client_id : Option String
  tax_id : Option String
  address : Option String

structure Financials where
  total_amount : Option Float
  currency : Option String
  due_date : Option String
  status : Option String

structure PeriodAndUsage where
  billing_period_start : Option String
  billing_period_end : Option String
  cutoff_date : Option String
  tariff_type : Option String

/-- Main schema for the bill extraction task (`class BillExtraction(BaseModel)`). -/
structure BillExtraction where
  provider : Provider
  document : DocumentInfo
  customer : Customer
  financials : Financials
  period_and_usage : PeriodAndUsage

/-- Pydantic dumps an `Optional[str]` field: `None ↦ null`, otherwise the string. -/
def optStr : Option String → JsonValue
  | none => .null
  | some s => .str s

/-- Pydantic dumps an `Optional[float]` field: `None ↦ null`, otherwise the number. -/
def optNum : Option Float → JsonValue
  | none => .null
  | some x => .num x

def Provider.model_dump (p : Provider) : JsonValue :=
  .obj (.cons "name" (optStr p.name)
    (.cons "contact_info" (optStr p.contact_info) .nil))

def DocumentInfo.model_dump (d : DocumentInfo) : JsonValue :=
  .obj (.cons "type" (optStr d.type)
    (.cons "number" (optStr d.number)
      (.cons "issue_date" (optStr d.issue_date) .nil)))

def Customer.model_dump (c : Customer) : JsonValue :=
  .obj (.cons "name" (optStr c.name)
    (.cons "client_id" (optStr c.client_id)
      (.cons "tax_id" (optStr c.tax_id)
        (.cons "address" (optStr c.address) .nil))))

def Financials.model_dump (f : Financials) : JsonValue :=
  .obj (.cons "total_amount" (optNum f.total_amount)
    (.cons "currency" (optStr f.currency)
      (.cons "due_date" (optStr f.due_date)
        (.cons "status" (optStr f.status) .nil))))

def PeriodAndUsage.model_dump (p : PeriodAndUsage) : JsonValue :=
  .obj (.cons "billing_period_start" (optStr p.billing_period_start)
    (.cons "billing_period_end" (optStr p.billing_period_end)
      (.cons "cutoff_date" (optStr p.cutoff_date)
        (.cons "tariff_type" (optStr p.tariff_type) .nil))))

/-- `response.model_dump()`: the Pydantic record as a plain (ordered) dict. -/
def BillExtraction.model_dump (r : BillExtraction) : JsonValue :=
  .obj (.cons "provider" r.provider.model_dump
    (.cons "document" r.document.model_dump
      (.cons "customer" r.customer.model_dump
        (.cons "financials" r.financials.model_dump
          (.cons "period_and_usage" r.period_and_usage.model_dump .nil)))))

/-! ## base64 (Python `base64.b64encode(...).decode("utf-8")`, RFC 4648) -/

def base64Alphabet : List Char :=
  "ABCDEFGHIJKLMNOPQRSTUVWXYZabcdefghijklmnopqrstuvwxyz0123456789+/".data

def b64Char (n : Nat) : Char := base64Alphabet.getD n 'A'

/-- Bytes (each `< 256`) to base64 characters, with `=` padding. -/
def base64EncodeChars : List Nat → List Char
  | [] => []
  | [b1] => [b64Char (b1 / 4), b64Char (b1 % 4 * 16), '=', '=']
  | [b1, b2] => [b64Char (b1 / 4), b64Char (b1 % 4 * 16 + b2 / 16), b64Char (b2 % 16 * 4), '=']
  | b1 :: b2 :: b3 :: rest =>
      b64Char (b1 / 4) :: b64Char (b1 % 4 * 16 + b2 / 16) ::
        b64Char (b2 % 16 * 4 + b3 / 64) :: b64Char (b3 % 64) :: base64EncodeChars rest

def base64Encode (bytes : List Nat) : String := ⟨base64EncodeChars bytes⟩

/-! ## Workflow state and effect interfaces -/

/-- The LangGraph `AgentState` TypedDict (section 3 of the source).  `none`
models an absent key; the graph is always invoked with only `image_path`. -/
structure AgentState where
  image_path : String
  extracted_data : Option JsonValue := none
  error : Option String := none

/-- The filesystem: `open(path, "rb").read()` either yields bytes or raises
with message `e`.  `os.path.exists` is modelled as this read succeeding. -/
abbrev FileSystem := String → Except String (List Nat)

/-- The single vision request: the prompt text plus the inline image data URI
(the two entries of the `HumanMessage` content list). -/
structure ModelRequest where
  instruction : String
  image_url : String

/-- The hosted structured-output model: `llm.invoke([message])` either returns
a schema-conforming `BillExtraction` or raises with message `e`. -/
abbrev Model := ModelRequest → Except String BillExtraction

/-- Python truthiness of `state.get("error")`: `None` and `""` are falsy. -/
def errTruthy : Option String → Bool
  | none => false
  | some s => s != ""

/-! ## Graph nodes (section 4 of the source) -/

/-- Result of `load_and_encode_image`: the returned partial state update,
either `{"image_data": ...}` or `{"error": ...}`. -/
inductive LoadResult where
  | image_data : String → LoadResult
  | error : String → LoadResult

/-- Reads the image file and encodes it to base64; any exception is caught
and converted to a `Failed to load image: ...` error value. -/
def load_and_encode_image (fs : FileSystem) (state : AgentState) : LoadResult :=
  match fs state.image_path with
  | .ok bytes => .image_data (base64Encode bytes)
  | .error e => .error ("Failed to load image: " ++ e)

/-- The fixed system prompt of `extract_data_node` (verbatim). -/
def system_instruction : String :=
  "\n    You are an automated document processing agent specialized in data extraction.\n    Analyze the provided image of a service bill. Extract the key metadata into the requested JSON structure.\n    \n    1. Identify provider, customer, dates, and financials.\n    2. Normalize dates to YYYY-MM-DD.\n    3. Normalize amounts to numbers (remove $ and dots).\n    4. If a field is missing, return null.\n    "

/-- The `HumanMessage` built from the base64 payload: the data URI hard-codes
the `image/jpeg` media type. -/
def mkRequest (image_b64 : String) : ModelRequest :=
  { instruction := system_instruction
    image_url := "data:image/jpeg;base64," ++ image_b64 }

/-- The tail of the `try` block: merge the model's reply into the state
(`{"extracted_data": response.model_dump()}`), or catch the exception
(`{"error": f"Extraction failed: ..."}`). -/
def handleModelResponse (state : AgentState) (resp : Except String BillExtraction) : AgentState :=
  match resp with
  | .ok response => { state with extracted_data := some response.model_dump }
  | .error e => { state with error := some ("Extraction failed: " ++ e) }

/-- `extract_data_node`, post-merge: short-circuits on a truthy `error`,
otherwise re-reads the file itself, builds the request and invokes the model;
both the re-read and the invocation sit inside the `try`, so either failure
becomes `Extraction failed: ...`. -/
def extract_data_node (fs : FileSystem) (model : Model) (state : AgentState) : AgentState :=
  if errTruthy state.error then state
  else
    match fs state.image_path with
    | .error e => { state with error := some ("Extraction failed: " ++ e) }
    | .ok bytes =>
        let image_b64 := base64Encode bytes
        handleModelResponse state (model (mkRequest image_b64))

/-! ## The compiled graph (section 5 of the source) -/

/-- The data a `StateGraph` accumulates before `.compile()`: added nodes,
entry point, edges. -/
structure CompiledGraph where
  nodes : List String
  entry : String
  edges : List (String × String)

/-- LangGraph's `END` sentinel. -/
def END_NODE : String := "__end__"

/-- `build_extraction_graph`: adds the single node `"extract"`, sets it as
entry point, and wires `"extract" → END`.  (`load_and_encode_image` is never
added.) -/
def build_extraction_graph : CompiledGraph :=
  { nodes := ["extract"]
    entry := "extract"
    edges := [("extract", END_NODE)] }

/-- Node-name to node-function mapping for this program. -/
def nodeSemantics (fs : FileSystem) (model : Model) : String → AgentState → AgentState
  | "extract" => extract_data_node fs model
  | _ => fun s => s

/-- Fuel-bounded execution of a compiled graph from a given node. -/
def runFrom (g : CompiledGraph) (fs : FileSystem) (model : Model) :
    Nat → String → AgentState → AgentState
  | 0, _, s => s
  | fuel + 1, node, s =>
      if node == END_NODE then s
      else
        let s2 := nodeSemantics fs model node s
        match g.edges.lookup node with
        | some next => runFrom g fs model fuel next s2
        | none => s2

/-- `app.invoke(init)` on the compiled graph. -/
def invokeGraph (fs : FileSystem) (model : Model) (init : AgentState) : AgentState :=
  runFrom build_extraction_graph fs model
    (build_extraction_graph.edges.length + 1) build_extraction_graph.entry init

/-! ## Main execution (section 6 of the source) -/

/-- Whether `open(path, "rb").read()` would succeed; models `os.path.exists`. -/
def readOk (r : Except String (List Nat)) : Bool :=
  match r with
  | .ok _ => true
  | .error _ => false

def pad (n : Nat) : String := ⟨List.replicate n ' '⟩

def escChar (ch : Char) : List Char :=
  if ch == '"' then ['\\', '"']
  else if ch == '\\' then ['\\', '\\']
  else if ch == '\n' then ['\\', 'n']
  else [ch]

def jsonEscape (s : String) : String := ⟨s.data.foldr (fun ch acc => escChar ch ++ acc) []⟩

def jsonQuote (s : String) : String := "\"" ++ jsonEscape s ++ "\""

mutual

/-- `json.dumps(v, indent=2, ensure_ascii=False)` at indentation `ind`
(numeric formatting abstracted by `toString`). -/
def renderJson (ind : Nat) : JsonValue → String
  | .null => "null"
  | .str s => jsonQuote s
  | .num x => toString x
  | .obj .nil => "\x7b\x7d"
  | .obj fields => "\x7b\n" ++ renderFields (ind + 2) fields ++ "\n" ++ pad ind ++ "\x7d"

def renderFields (ind : Nat) : JsonFields → String
  | .nil => ""
  | .cons k v .nil => pad ind ++ jsonQuote k ++ ": " ++ renderJson ind v
  | .cons k v rest =>
      pad ind ++ jsonQuote k ++ ": " ++ renderJson ind v ++ ",\n" ++ renderFields ind rest

end

/-- The lines the `__main__` block prints, for a given image path (the
hard-coded `IMAGE_FILE` constant is a parameter here). -/
def mainOutput (fs : FileSystem) (model : Model) (imageFile : String) : List String :=
  if readOk (fs imageFile) = false then
    ["Error: File " ++ imageFile ++ " not found. Please place the image in the directory."]
  else
    let result := invokeGraph fs model { image_path := imageFile }
    ("--- Starting Extraction for " ++ imageFile ++ " ---") ::
      (if errTruthy result.error then
        ["Error: " ++ result.error.getD ""]
      else
        ["", "--- Extracted JSON Data ---", renderJson 0 (result.extracted_data.getD .null)])

/-! ## String-prefix helpers used to state the claims -/

def listPre : List Char → List Char → Bool
  | [], _ => true
  | _ :: _, [] => false
  | p :: ps, s :: ss => p == s && listPre ps ss

/-- `strHasPre p s`: `s` starts with `p`. -/
def strHasPre (p s : String) : Bool := listPre p.data s.data

/-- Extract the media type of a `data:` URI: the characters after `data:`
and before the first `;`. -/
def mediaType (u : String) : String :=
  ⟨(u.data.drop 5).takeWhile (fun ch => ch != ';')⟩

/-! ## Concrete fixtures (stub filesystems and model doubles) -/

def missingCause : String := "[Errno 2] No such file or directory: missing.png"

def fsMissing : FileSystem := fun _ => .error missingCause

def sampleBytes : List Nat := [137, 80, 78, 71]

def fsSample : FileSystem := fun _ => .ok sampleBytes

def fsSample2 : FileSystem := fun p => if p == "bill.png" then .ok sampleBytes else .error "other"

def permCause : String := "[Errno 13] Permission denied: bill.jpg"

def fsPerm : FileSystem := fun _ => .error permCause

def sampleRecord : BillExtraction :=
  { provider := { name := some "Acme Power", contact_info := none }
    document := { type := some "Electronic Bill", number := some "INV-123", issue_date := none }
    customer := { name := none, client_id := some "C-9", tax_id := none, address := some "Main St 1" }
    financials := { total_amount := some 45000.0, currency := some "CLP"
                    due_date := some "2024-05-10", status := some "Pending" }
    period_and_usage := { billing_period_start := some "2024-04-01"
                          billing_period_end := some "2024-04-30"
                          cutoff_date := none, tariff_type := some "BT1" } }

def stubModel : Model := fun _ => .ok sampleRecord

def modelFail : Model := fun _ => .error "503 Service Unavailable"

/-! ## Helper lemmas -/

lemma str_data_append (a b : String) : (a ++ b).data = a.data ++ b.data := by
  cases a; cases b; rfl

lemma listPre_append_self (l r : List Char) : listPre l (l ++ r) = true := by
  induction l with
  | nil => rfl
  | cons a as ih => simp [listPre, ih]

lemma not_load_pre (c : String) :
    strHasPre "Failed to load image: " ("Extraction failed: " ++ c) = false := by
  unfold strHasPre
  rw [str_data_append]
  rfl

lemma extraction_pre (c : String) :
    strHasPre "Extraction failed: " ("Extraction failed: " ++ c) = true := by
  unfold strHasPre
  rw [str_data_append]
  exact listPre_append_self _ _

lemma mediaType_jpeg (b64 : String) :
    mediaType ("data:image/jpeg;base64," ++ b64) = "image/jpeg" := by
  unfold mediaType
  rw [str_data_append]
  rfl

lemma extract_congr (fs1 fs2 : FileSystem) (m1 m2 : Model) (s : AgentState)
    (hfs : fs1 s.image_path = fs2 s.image_path)
    (hm : ∀ req : ModelRequest, m1 req = m2 req) :
    extract_data_node fs1 m1 s = extract_data_node fs2 m2 s := by
  unfold extract_data_node
  rw [hfs]
  simp only [hm]

/-! ## Claims -/

/-- Claim C1, counterexample: on the nonexistent path `missing.png` the
compiled workflow's error is `Extraction failed: ...`, which is not prefixed
`Failed to load image: ` — the claimed `LoadError` shape does not occur. -/
theorem C1_counterexample :
    (invokeGraph fsMissing stubModel { image_path := "missing.png" }).error
      = some "Extraction failed: [Errno 2] No such file or directory: missing.png"
    ∧ strHasPre "Failed to load image: "
        "Extraction failed: [Errno 2] No such file or directory: missing.png" = false :=
  ⟨rfl, rfl⟩

/-- Claim C1 (amended): for every nonexistent input path, invoking the
compiled workflow yields an error prefixed `Extraction failed: ` (the graph's
only node, the Extractor, fails its own file read), and the model is never
called: the result is independent of the model. -/
theorem C1_missing_path_behavior (fs : FileSystem) (model : Model) (path c : String)
    (h : fs path = .error c) :
    (invokeGraph fs model { image_path := path }).error = some ("Extraction failed: " ++ c)
    ∧ ∀ model2 : Model, invokeGraph fs model { image_path := path }
        = invokeGraph fs model2 { image_path := path } := by
  have hg : ∀ m : Model, invokeGraph fs m { image_path := path }
      = extract_data_node fs m { image_path := path } := fun _ => rfl
  constructor
  · rw [hg]
    simp [extract_data_node, errTruthy, h]
  · intro m2
    rw [hg, hg]
    simp [extract_data_node, errTruthy, h]

/-- Claim C1, witness for the amended theorem at a concrete input. -/
theorem C1_missing_path_witness :
    (invokeGraph fsMissing stubModel { image_path := "missing.png" }).error
      = some ("Extraction failed: " ++ missingCause) :=
  (C1_missing_path_behavior fsMissing stubModel "missing.png" missingCause rfl).1

/-- Claim C2, counterexample: the compiled graph's node list is exactly
`["extract"]` — `load_and_encode_image` is never added — and on a concrete
missing file the invocation result carries the Extractor's error, not the
`Failed to load image: ` error the Loader would have produced. -/
theorem C2_counterexample :
    build_extraction_graph.nodes = ["extract"]
    ∧ load_and_encode_image fsMissing { image_path := "missing.png" }
        = LoadResult.error ("Failed to load image: " ++ missingCause)
    ∧ (invokeGraph fsMissing stubModel { image_path := "missing.png" }).error
        = some ("Extraction failed: " ++ missingCause)
    ∧ strHasPre "Failed to load image: " ("Extraction failed: " ++ missingCause) = false :=
  ⟨rfl, rfl, rfl, not_load_pre missingCause⟩

/-- Claim C2 (amended): the compiled graph executes exactly one component:
its node list is `["extract"]`, its entry point is `"extract"`, and every
invocation runs exactly `extract_data_node`; `load_and_encode_image` is
defined in the source but never wired into the graph. -/
theorem C2_single_node_graph :
    build_extraction_graph.nodes = ["extract"]
    ∧ build_extraction_graph.entry = "extract"
    ∧ ∀ (fs : FileSystem) (model : Model) (s : AgentState),
        invokeGraph fs model s = extract_data_node fs model s :=
  ⟨rfl, rfl, fun _ _ _ => rfl⟩

/-- Claim C3: a workflow state that already carries an error message (a
truthy `error`, i.e. a nonempty string) is returned unchanged by
`extract_data_node`, for every filesystem and every model — the node neither
reads the file nor invokes the model nor alters the recorded message. -/
theorem C3_error_short_circuit (fs : FileSystem) (model : Model) (s : AgentState) (m : String)
    (herr : s.error = some m) (hm : m ≠ "") :
    extract_data_node fs model s = s := by
  have ht : errTruthy s.error = true := by
    simp [herr, errTruthy, hm]
  simp [extract_data_node, ht]

/-- Claim C3, witness at a concrete errored state. -/
theorem C3_error_short_circuit_witness :
    extract_data_node fsMissing stubModel
        { image_path := "a.png", error := some "boom" }
      = { image_path := "a.png", error := some "boom" } :=
  C3_error_short_circuit fsMissing stubModel
    { image_path := "a.png", error := some "boom" } "boom" rfl (by decide)

/-- Claim C4, counterexample: on failing runs the program prints plain text,
not a JSON document.  For the nonexistent path `missing.png` the whole output
is the existence-check message (no `Failed to load image: ` text, and the
line does not even start with a brace), and on a workflow failure the output
is `Error: <message>`, again not brace-initial. -/
theorem C4_counterexample :
    mainOutput fsMissing stubModel "missing.png"
      = ["Error: File missing.png not found. Please place the image in the directory."]
    ∧ strHasPre "\x7b"
        "Error: File missing.png not found. Please place the image in the directory." = false
    ∧ mainOutput fsSample modelFail "bill.png"
      = ["--- Starting Extraction for bill.png ---",
         "Error: Extraction failed: 503 Service Unavailable"]
    ∧ strHasPre "\x7b" "Error: Extraction failed: 503 Service Unavailable" = false :=
  ⟨rfl, rfl, rfl, rfl⟩

/-- Claim C4 (amended): on a failing run the program's standard output is
plain text, not JSON: a nonexistent path triggers the pre-check line
`Error: File <path> not found. Please place the image in the directory.`,
and a workflow failure prints `Error: <message>`. -/
theorem C4_failure_output_plain_text (fs : FileSystem) (model : Model) (f : String) :
    (readOk (fs f) = false →
      mainOutput fs model f
        = ["Error: File " ++ f ++ " not found. Please place the image in the directory."])
    ∧ (readOk (fs f) = true →
        errTruthy (invokeGraph fs model { image_path := f }).error = true →
        mainOutput fs model f
          = ["--- Starting Extraction for " ++ f ++ " ---",
             "Error: " ++ (invokeGraph fs model { image_path := f }).error.getD ""]) := by
  constructor
  · intro h
    simp [mainOutput, h]
  · intro h1 h2
    simp [mainOutput, h1, h2]

/-- Claim C4, witness for the amended theorem at a concrete input. -/
theorem C4_failure_output_witness :
    mainOutput fsMissing stubModel "missing.png"
      = ["Error: File " ++ "missing.png"
          ++ " not found. Please place the image in the directory."] :=
  (C4_failure_output_plain_text fsMissing stubModel "missing.png").1 rfl

/-- Claim C5: if the model returns a schema-conforming record, the workflow
stores exactly `model_dump` of that record: the five schema sections are all
present (in order), every leaf key maps to the dumped field value verbatim,
and a `none` leaf surfaces as JSON `null` rather than being defaulted or
dropped. -/
theorem C5_pass_through (fs : FileSystem) (model : Model) (s : AgentState) (bytes : List Nat)
    (r : BillExtraction)
    (herr : s.error = none)
    (hread : fs s.image_path = .ok bytes)
    (hmodel : model (mkRequest (base64Encode bytes)) = .ok r) :
    (extract_data_node fs model s).extracted_data = some r.model_dump
    ∧ topKeys r.model_dump = ["provider", "document", "customer", "financials", "period_and_usage"]
    ∧ leafLookup r.model_dump "provider" "name" = some (optStr r.provider.name)
    ∧ leafLookup r.model_dump "provider" "contact_info" = some (optStr r.provider.contact_info)
    ∧ leafLookup r.model_dump "document" "type" = some (optStr r.document.type)
    ∧ leafLookup r.model_dump "document" "number" = some (optStr r.document.number)
    ∧ leafLookup r.model_dump "document" "issue_date" = some (optStr r.document.issue_date)
    ∧ leafLookup r.model_dump "customer" "name" = some (optStr r.customer.name)
    ∧ leafLookup r.model_dump "customer" "client_id" = some (optStr r.customer.client_id)
    ∧ leafLookup r.model_dump "customer" "tax_id" = some (optStr r.customer.tax_id)
    ∧ leafLookup r.model_dump "customer" "address" = some (optStr r.customer.address)
    ∧ leafLookup r.model_dump "financials" "total_amount" = some (optNum r.financials.total_amount)
    ∧ leafLookup r.model_dump "financials" "currency" = some (optStr r.financials.currency)
    ∧ leafLookup r.model_dump "financials" "due_date" = some (optStr r.financials.due_date)
    ∧ leafLookup r.model_dump "financials" "status" = some (optStr r.financials.status)
    ∧ leafLookup r.model_dump "period_and_usage" "billing_period_start"
        = some (optStr r.period_and_usage.billing_period_start)
    ∧ leafLookup r.model_dump "period_and_usage" "billing_period_end"
        = some (optStr r.period_and_usage.billing_period_end)
    ∧ leafLookup r.model_dump "period_and_usage" "cutoff_date"
        = some (optStr r.period_and_usage.cutoff_date)
    ∧ leafLookup r.model_dump "period_and_usage" "tariff_type"
        = some (optStr r.period_and_usage.tariff_type)
    ∧ (r.provider.contact_info = none →
        leafLookup r.model_dump "provider" "contact_info" = some JsonValue.null)
    ∧ (r.financials.total_amount = none →
        leafLookup r.model_dump "financials" "total_amount" = some JsonValue.null) := by
  refine ⟨?_, rfl, rfl, rfl, rfl, rfl, rfl, rfl, rfl, rfl, rfl, rfl, rfl, rfl, rfl, rfl,
    rfl, rfl, rfl, ?_, ?_⟩
  · simp [extract_data_node, errTruthy, herr, hread, hmodel, handleModelResponse]
  · intro h
    have e : leafLookup r.model_dump "provider" "contact_info"
        = some (optStr r.provider.contact_info) := rfl
    rw [e, h]
    rfl
  · intro h
    have e : leafLookup r.model_dump "financials" "total_amount"
        = some (optNum r.financials.total_amount) := rfl
    rw [e, h]
    rfl

/-- Claim C5, witness at a concrete stubbed record (with some `none` leaves). -/
theorem C5_pass_through_witness :
    (extract_data_node fsSample stubModel { image_path := "bill.png" }).extracted_data
      = some sampleRecord.model_dump :=
  (C5_pass_through fsSample stubModel { image_path := "bill.png" }
      sampleBytes sampleRecord rfl rfl rfl).1

/-- Claim C6: for every path whose read fails, `load_and_encode_image`
returns (never raises) the error value `Failed to load image: ` followed by
the underlying cause. -/
theorem C6_load_never_raises (fs : FileSystem) (s : AgentState) (c : String)
    (h : fs s.image_path = .error c) :
    load_and_encode_image fs s = LoadResult.error ("Failed to load image: " ++ c) := by
  simp [load_and_encode_image, h]

/-- Claim C6, witness at a concrete missing file. -/
theorem C6_load_never_raises_witness :
    load_and_encode_image fsMissing { image_path := "missing.png" }
      = LoadResult.error ("Failed to load image: " ++ missingCause) :=
  C6_load_never_raises fsMissing { image_path := "missing.png" } missingCause rfl

/-- Claim C7: for every failure inside the Extractor's `try` block — the file
re-read raising, or the model call raising (transport, schema-validation or
provider error) — `extract_data_node` returns (never raises) an error
`Extraction failed: ` followed by the underlying message. -/
theorem C7_extract_catches_failures (fs : FileSystem) (model : Model) (s : AgentState)
    (c : String) (herr : errTruthy s.error = false) :
    (fs s.image_path = .error c →
      (extract_data_node fs model s).error = some ("Extraction failed: " ++ c))
    ∧ (∀ bytes : List Nat, fs s.image_path = .ok bytes →
        model (mkRequest (base64Encode bytes)) = .error c →
        (extract_data_node fs model s).error = some ("Extraction failed: " ++ c)) := by
  constructor
  · intro h
    simp [extract_data_node, herr, h]
  · intro bytes hread hmodel
    simp [extract_data_node, herr, hread, handleModelResponse, hmodel]

/-- Claim C7, witness: a concrete provider failure is converted to an
`Extraction failed: ` error. -/
theorem C7_extract_catches_failures_witness :
    (extract_data_node fsSample modelFail { image_path := "bill.png" }).error
      = some ("Extraction failed: " ++ "503 Service Unavailable") :=
  (C7_extract_catches_failures fsSample modelFail { image_path := "bill.png" }
      "503 Service Unavailable" rfl).2 sampleBytes rfl rfl

/-- Claim C8: the run is deterministic given the file contents at the input
path and the model's reply — two invocations whose filesystems agree on the
input path and whose models agree pointwise print identical output
documents. -/
theorem C8_deterministic (fs1 fs2 : FileSystem) (model1 model2 : Model) (imageFile : String)
    (hfs : fs1 imageFile = fs2 imageFile)
    (hm : ∀ req : ModelRequest, model1 req = model2 req) :
    mainOutput fs1 model1 imageFile = mainOutput fs2 model2 imageFile := by
  have hrun : invokeGraph fs1 model1 { image_path := imageFile }
      = invokeGraph fs2 model2 { image_path := imageFile } :=
    extract_congr fs1 fs2 model1 model2 { image_path := imageFile } hfs hm
  unfold mainOutput
  rw [hfs, hrun]

/-- Claim C8, witness: two filesystems agreeing on `bill.png` yield the same
output. -/
theorem C8_deterministic_witness :
    mainOutput fsSample stubModel "bill.png" = mainOutput fsSample2 stubModel "bill.png" :=
  C8_deterministic fsSample fsSample2 stubModel stubModel "bill.png" rfl (fun _ => rfl)

/-- Claim C9: the Extractor re-reads the file from `state.image_path` itself;
on an error-free state whose file read fails, `extract_data_node` reports
`Extraction failed: ` plus the cause — a message that does carry the
`Extraction failed: ` prefix and never the `Failed to load image: ` prefix. -/
theorem C9_extractor_rereads (fs : FileSystem) (model : Model) (s : AgentState) (c : String)
    (herr : errTruthy s.error = false)
    (h : fs s.image_path = .error c) :
    (extract_data_node fs model s).error = some ("Extraction failed: " ++ c)
    ∧ strHasPre "Extraction failed: " ("Extraction failed: " ++ c) = true
    ∧ strHasPre "Failed to load image: " ("Extraction failed: " ++ c) = false := by
  refine ⟨?_, extraction_pre c, not_load_pre c⟩
  simp [extract_data_node, herr, h]

/-- Claim C9, witness at a concrete unreadable file. -/
theorem C9_extractor_rereads_witness :
    (extract_data_node fsPerm stubModel { image_path := "bill.jpg" }).error
      = some ("Extraction failed: " ++ permCause) :=
  (C9_extractor_rereads fsPerm stubModel { image_path := "bill.jpg" } permCause rfl rfl).1

/-- Claim C10: for every file content, the request handed to the model embeds
the image as a data URI hard-coded to media type `image/jpeg`: the node's
result is exactly the handling of `model` applied to `mkRequest` of the
base64 payload, and that request's URI declares `image/jpeg` whatever the
bytes are. -/
theorem C10_always_jpeg (fs : FileSystem) (model : Model) (s : AgentState) (bytes : List Nat)
    (herr : errTruthy s.error = false)
    (hread : fs s.image_path = .ok bytes) :
    extract_data_node fs model s
      = handleModelResponse s (model (mkRequest (base64Encode bytes)))
    ∧ (mkRequest (base64Encode bytes)).image_url
      = "data:image/jpeg;base64," ++ base64Encode bytes
    ∧ mediaType (mkRequest (base64Encode bytes)).image_url = "image/jpeg" := by
  refine ⟨?_, rfl, mediaType_jpeg _⟩
  simp [extract_data_node, herr, hread]

/-- Claim C10, witness at concrete PNG-header bytes. -/
theorem C10_always_jpeg_witness :
    mediaType (mkRequest (base64Encode sampleBytes)).image_url = "image/jpeg" :=
  (C10_always_jpeg fsSample stubModel { image_path := "bill.png" } sampleBytes rfl rfl).2.2
